import Mathlib

/-!
Shallow embedding of the BFF gateway's aggregation-and-auth core.

The gateway sits between a browser client and two upstream services
(the Orchestrator and the Offchain API).  Route handlers are embedded as
pure functions from the request data and the outcomes of the upstream
calls to the response (an `Except` of the error envelope and a
status-code/body pair).  JavaScript truthiness on optional strings,
arrays and booleans is made explicit through small helper functions.
-/

namespace BffGateway

/-- The `AppError` / error-envelope shape from `error.middleware.ts`:
`{message, statusCode, errors?}`. -/
structure ApiError where
  message : String
  statusCode : Nat
  errors : Option (List String) := none
deriving Repr, DecidableEq

/-- JavaScript `v || d` for an optional string `v`: `undefined` and the
empty string are falsy, any other string is returned unchanged. -/
def jsOrStr (v : Option String) (d : String) : String :=
  match v with
  | some s => if s = "" then d else s
  | none => d

/-- JavaScript truthiness of an optional string: `undefined`/`null` and
`""` are falsy. -/
def jsTruthyStr (v : Option String) : Bool :=
  match v with
  | some s => s ≠ ""
  | none => false

/-! ### Auth guard (`middlewares/auth.middleware.ts`, verifying variant) -/

/-- The claims decoded from a verified token: `{userId, email, role}`. -/
structure JwtClaims where
  userId : String
  email : String
  role : String
deriving Repr, DecidableEq

/-- Outcome of `jwt.verify` against the shared secret, as distinguished by
the catch block: success, `TokenExpiredError`, `JsonWebTokenError`, or any
other failure. -/
inductive VerifyResult where
  | ok (claims : JwtClaims)
  | expired
  | invalid
  | otherFailure
deriving Repr, DecidableEq

/-- JavaScript `split` with a single-character separator, on the char
list: every separator occurrence cuts, and empty pieces are kept. -/
def splitCharsOn (sep : Char) : List Char → List (List Char)
  | [] => [[]]
  | c :: cs =>
    match splitCharsOn sep cs with
    | r :: rs => if c = sep then [] :: r :: rs else (c :: r) :: rs
    | [] => if c = sep then [[], []] else [[c]]

/-- JavaScript `s.split(sep)` for a one-character separator, as used by
`authHeader.split(' ')`. -/
def jsSplit (s : String) (sep : Char) : List String :=
  (splitCharsOn sep s.data).map String.mk

/-- 401 error when the `Authorization` header is absent. -/
def noHeaderError : ApiError := ⟨"No authorization header provided", 401, none⟩

/-- 401 error when the header does not have the `Bearer <token>` form. -/
def badFormatError : ApiError :=
  ⟨"Invalid authorization header format. Expected: Bearer <token>", 401, none⟩

/-- `authenticateJWT` from `auth.middleware.ts`: checks header presence,
splits on a single space requiring exactly two parts with first part
`Bearer`, then verifies the token and either attaches the decoded claims
or rejects with a 401 whose message distinguishes the failure mode. -/
def authenticateJWT (verify : String → VerifyResult) (authHeader : Option String) :
    Except ApiError JwtClaims :=
  match authHeader with
  | none => .error noHeaderError
  | some h =>
    if (jsSplit h ' ').length ≠ 2 ∨ (jsSplit h ' ').headD "" ≠ "Bearer" then
      .error badFormatError
    else
      match verify ((jsSplit h ' ').getD 1 "") with
      | .ok c => .ok c
      | .expired => .error ⟨"Token expired", 401, none⟩
      | .invalid => .error ⟨"Invalid token", 401, none⟩
      | .otherFailure => .error ⟨"Token validation failed", 401, none⟩

/-! ### Upstream client error translation (axios response interceptors) -/

/-- The three shapes an axios failure can take, as the interceptors
distinguish them: `error.response` present (upstream answered with an
error status), `error.request` present (no response received), or
neither (request construction failed). -/
inductive AxiosFailure where
  | response (status : Nat) (message : Option String) (errors : Option (List String))
  | request
  | setup
deriving Repr, DecidableEq

/-- The Orchestrator client's response interceptor
(`orchestrator.service.ts`): passes through the upstream message (with a
generic fallback for a missing/empty one), status and structured
`errors` list; maps no-response to 503 and setup failure to 500. -/
def orchestratorInterceptor : AxiosFailure → ApiError
  | .response st msg errs => ⟨jsOrStr msg "Orchestrator service error", st, errs⟩
  | .request => ⟨"Orchestrator service is unavailable", 503, none⟩
  | .setup => ⟨"Failed to call Orchestrator service", 500, none⟩

/-- The Offchain client's response interceptor (`offchain.service.ts`):
same three-way classification, but the `AppError` is built from message
and status only — the upstream's structured `errors` list is not passed
along. -/
def offchainInterceptor : AxiosFailure → ApiError
  | .response st msg _ => ⟨jsOrStr msg "Blockchain service error", st, none⟩
  | .request => ⟨"Blockchain service is unavailable", 503, none⟩
  | .setup => ⟨"Failed to call blockchain service", 500, none⟩

/-- A call through the Orchestrator client: a raw axios outcome is either
returned on 2xx or translated by the interceptor into a thrown
`AppError`. -/
def orchestratorCall {α : Type} (raw : Except AxiosFailure α) : Except ApiError α :=
  match raw with
  | .ok a => .ok a
  | .error f => .error (orchestratorInterceptor f)

/-- A call through the Offchain client, translating failures with
`offchainInterceptor`. -/
def offchainCall {α : Type} (raw : Except AxiosFailure α) : Except ApiError α :=
  match raw with
  | .ok a => .ok a
  | .error f => .error (offchainInterceptor f)

/-! ### `OffchainService.registerIdentity` -/

/-- The body `registerIdentity` resolves with: `{success, alreadyRegistered?}`. -/
structure RegisterIdentityResult where
  success : Bool
  alreadyRegistered : Option Bool := none
deriving Repr, DecidableEq

/-- Whether a message satisfies the catch block's test
`message.includes('já')`. -/
def messageIndicatesAlreadyRegistered (m : String) : Bool :=
  decide ("já".toList <:+: m.toList)

/-- The dynamic access `error.response?.data?.message` performed by
`registerIdentity`'s catch block, applied to the value that actually
reaches it.  The response interceptor installed in the `OffchainService`
constructor rethrows every axios failure as an `AppError`, and an
`AppError` carries only `message`, `statusCode` and `errors` — it has no
`response` field — so the optional chain evaluates to `undefined`. -/
def appErrorResponseDataMessage (_e : ApiError) : Option String := none

/-- `OffchainService.registerIdentity`: posts to
`/api/identity/register`; on failure, if the caught error's
`response?.data?.message` contains `'já'` it resolves with
`{success: true, alreadyRegistered: true}`, otherwise it rethrows. -/
def registerIdentity (raw : Except AxiosFailure RegisterIdentityResult) :
    Except ApiError RegisterIdentityResult :=
  match offchainCall raw with
  | .ok r => .ok r
  | .error e =>
    match appErrorResponseDataMessage e with
    | some m =>
      if messageIndicatesAlreadyRegistered m then .ok ⟨true, some true⟩ else .error e
    | none => .error e

/-! ### Property data model -/

/-- A DB-sourced property record (`PropertyDTO` from the Orchestrator). -/
structure DbProperty where
  matriculaId : Nat
  folha : Nat
  comarca : String
  endereco : String
  metragem : Nat
  proprietario : String
  tipo : String
  isRegular : Option Bool := none
  matriculaOrigem : Option Nat := none
  blockchainTxHash : Option String := none
  createdAt : Option String := none
  updatedAt : Option String := none
deriving Repr, DecidableEq

/-- A blockchain-sourced property record from the Offchain API; every
field is optional since the body is duck-typed. -/
structure BcProperty where
  ownerWallet : Option String := none
  tokenId : Option String := none
  txHash : Option String := none
  status : Option String := none
  isFrozen : Option Bool := none
deriving Repr, DecidableEq

/-- One entry of the `GET /properties/my` response: translated DB fields
plus the blockchain enrichment (or `null`). -/
structure MyPropertyEntry where
  matriculaId : Nat
  folha : Nat
  comarca : String
  endereco : String
  metragem : Nat
  matriculaOrigem : Option Nat
  ownerWalletAddress : String
  propertyType : String
  regularStatus : String
  blockchainTxHash : Option String
  createdAt : Option String
  updatedAt : Option String
  blockchain : Option BcProperty
deriving Repr, DecidableEq

/-- The per-item body built inside the `GET /properties/my` map: both the
try and catch branches emit the same translated DB fields and differ only
in the `blockchain` field, which is the lookup result on success and
`null` when the lookup threw. -/
def enrichProperty (db : DbProperty) (bcRes : Except ApiError BcProperty) : MyPropertyEntry :=
  { matriculaId := db.matriculaId
    folha := db.folha
    comarca := db.comarca
    endereco := db.endereco
    metragem := db.metragem
    matriculaOrigem := db.matriculaOrigem
    ownerWalletAddress := db.proprietario
    propertyType := db.tipo
    regularStatus := if db.isRegular.getD false then "REGULAR" else "IRREGULAR"
    blockchainTxHash := db.blockchainTxHash
    createdAt := db.createdAt
    updatedAt := db.updatedAt
    blockchain := bcRes.toOption }

/-- The `GET /properties/my` handler: fetches the user's DB properties
(failure propagates), answers `[]` for an empty list, and otherwise maps
every DB property to its enriched entry, where each item's blockchain
lookup is attempted independently under its own try/catch. -/
def myPropertiesRoute (dbRes : Except ApiError (List DbProperty))
    (bcLookup : Nat → Except ApiError BcProperty) :
    Except ApiError (Nat × List MyPropertyEntry) :=
  match dbRes with
  | .error e => .error e
  | .ok dbProps =>
    if dbProps.length = 0 then .ok (200, [])
    else .ok (200, dbProps.map (fun p => enrichProperty p (bcLookup p.matriculaId)))

/-- `dbData` of the `GET /properties/:matriculaId/full` response. -/
structure PropertyFullDbData where
  matriculaId : Nat
  folha : Nat
  comarca : String
  endereco : String
  metragem : Nat
  proprietario : String
  tipo : String
  isRegular : Option Bool
  matriculaOrigem : Option Nat
  registrationDate : String
deriving Repr, DecidableEq

/-- `blockchainData` of the `GET /properties/:matriculaId/full` response. -/
structure PropertyFullBcData where
  ownerWallet : String
  tokenId : String
  txHash : Option String
  status : String
  isFrozen : Bool
deriving Repr, DecidableEq

/-- The `PropertyFullDTO` response shape. -/
structure PropertyFullDTO where
  dbData : PropertyFullDbData
  blockchainData : PropertyFullBcData
deriving Repr, DecidableEq

/-- The aggregation step of the `/full` handler, executed only after both
lookups resolved: copies the DB fields and fills `blockchainData` with
`||`-defaults (`ownerWallet` falls back to the DB `proprietario`,
`tokenId` to the requested id, `status` to `'pending'`, `isFrozen` to
`false`); `now` stands for `new Date().toISOString()`. -/
def mergePropertyFull (matriculaId now : String) (db : DbProperty) (bc : BcProperty) :
    PropertyFullDTO :=
  { dbData :=
    { matriculaId := db.matriculaId
      folha := db.folha
      comarca := db.comarca
      endereco := db.endereco
      metragem := db.metragem
      proprietario := db.proprietario
      tipo := db.tipo
      isRegular := db.isRegular
      matriculaOrigem := db.matriculaOrigem
      registrationDate := jsOrStr db.createdAt now }
    blockchainData :=
    { ownerWallet := jsOrStr bc.ownerWallet db.proprietario
      tokenId := jsOrStr bc.tokenId matriculaId
      txHash := bc.txHash
      status := jsOrStr bc.status "pending"
      isFrozen := bc.isFrozen.getD false } }

/-- The `GET /properties/:matriculaId/full` handler (identical in both
revisions of `property.routes.ts`): awaits the DB metadata lookup, then
awaits the blockchain lookup with no surrounding try/catch, so a failure
of either await propagates to the error middleware; only when both
resolve is the merged DTO returned with 200. -/
def propertyFullRoute (matriculaId now : String)
    (dbRes : Except ApiError DbProperty) (bcRes : Except ApiError BcProperty) :
    Except ApiError (Nat × PropertyFullDTO) :=
  match dbRes with
  | .error e => .error e
  | .ok db =>
    match bcRes with
    | .error e => .error e
    | .ok bc => .ok (200, mergePropertyFull matriculaId now db bc)

/-! ### Transfer data model and routes (`transfer.routes.ts`) -/

/-- One approval entry of a transfer. -/
structure Approval where
  entity : String
  approved : Bool
  timestamp : Option String := none
deriving Repr, DecidableEq

/-- The DB-sourced transfer record from
`orchestratorService.getTransferStatus`. -/
structure DbTransfer where
  transferId : Option String := none
  matriculaId : String
  seller : String
  buyer : String
  status : String
  approvals : Option (List Approval) := none
  createdAt : String
deriving Repr, DecidableEq

/-- The blockchain-sourced transfer record from
`offchainService.getTransferFromBlockchain`. -/
structure BcTransfer where
  status : Option String := none
  approvals : Option (List Approval) := none
  buyerAccepted : Option Bool := none
deriving Repr, DecidableEq

/-- The `TransferStatusDTO` response shape. -/
structure TransferStatusDTO where
  transferId : String
  matriculaId : String
  seller : String
  buyer : String
  status : String
  approvals : List Approval
  buyerAccepted : Bool
  createdAt : String
deriving Repr, DecidableEq

/-- The merged DTO built when the DB lookup succeeded; `bc` is the
blockchain record, or `none` when that lookup failed (the inner catch
sets `blockchainTransfer = null`).  Mirrors the `||` chains of the
source, so a present-but-empty blockchain `approvals` array still wins
(JS arrays are truthy), while an absent field falls back to the DB
value. -/
def mergeTransferStatus (transferId : String) (db : DbTransfer) (bc : Option BcTransfer) :
    TransferStatusDTO :=
  { transferId := jsOrStr db.transferId transferId
    matriculaId := db.matriculaId
    seller := db.seller
    buyer := db.buyer
    status := jsOrStr (bc.bind BcTransfer.status) db.status
    approvals := ((bc.bind BcTransfer.approvals).orElse (fun _ => db.approvals)).getD []
    buyerAccepted := (bc.bind BcTransfer.buyerAccepted).getD false
    createdAt := db.createdAt }

/-- Body of the `GET /transfers/:transferId/status` response: the merged
DTO on the DB path, or the blockchain record relayed verbatim on the
fallback path. -/
inductive TransferStatusBody where
  | merged (dto : TransferStatusDTO)
  | raw (bc : BcTransfer)
deriving Repr, DecidableEq

/-- The `GET /transfers/:transferId/status` handler: tries the DB lookup;
on success merges with the (best-effort) blockchain lookup and answers
200; if the DB lookup threw, answers the blockchain record directly
(200), and only if that second lookup also throws does the error
propagate. -/
def transferStatusRoute (transferId : String)
    (dbRes : Except ApiError DbTransfer) (bcRes : Except ApiError BcTransfer) :
    Except ApiError (Nat × TransferStatusBody) :=
  match dbRes with
  | .ok db => .ok (200, .merged (mergeTransferStatus transferId db bcRes.toOption))
  | .error _ =>
    match bcRes with
    | .ok bc => .ok (200, .raw bc)
    | .error e => .error e

/-- A transfer record from `orchestratorService.getAllTransfers`; only
`matriculaId` is inspected by the `/my` filter. -/
structure TransferRec where
  transferId : Option String := none
  matriculaId : Option Nat := none
deriving Repr, DecidableEq

/-- The `GET /transfers/my` handler: the whole body sits in one
try/catch whose catch answers `res.json([])`, so a failure of either
upstream call yields 200 with an empty array; on success the transfers
are filtered to those whose `matriculaId?.toString()` occurs among the
user's property ids. -/
def myTransfersRoute (propsRes : Except ApiError (List DbProperty))
    (transfersRes : Except ApiError (List TransferRec)) : Nat × List TransferRec :=
  match propsRes with
  | .error _ => (200, [])
  | .ok props =>
    match transfersRes with
    | .error _ => (200, [])
    | .ok ts =>
      let ids := props.map (fun p => toString p.matriculaId)
      (200, ts.filter (fun t =>
        match t.matriculaId with
        | some m => ids.contains (toString m)
        | none => false))

/-! ### Local validation (`auth.routes.ts`, `property.routes.ts`) -/

/-- A character of the `[a-fA-F0-9]` class. -/
def isWalletHexChar (c : Char) : Bool :=
  c.isDigit || (decide ('a' ≤ c) && decide (c ≤ 'f')) || (decide ('A' ≤ c) && decide (c ≤ 'F'))

/-- The wallet pattern `^0x[a-fA-F0-9]\x7b40\x7d$`. -/
def isValidWalletAddress (s : String) : Bool :=
  match s.data with
  | '0' :: 'x' :: rest => rest.length == 40 && rest.all isWalletHexChar
  | _ => false

/-- A character of the `[^\s@]` class. -/
def emailOkChar (c : Char) : Bool :=
  !c.isWhitespace && c != '@'

/-- The email pattern `^[^\s@]+@[^\s@]+\.[^\s@]+$`: exactly one `@`, a
nonempty whitespace-free local part, and a domain containing a dot that
is neither its first nor its last character. -/
def emailMatches (s : String) : Bool :=
  match splitCharsOn '@' s.data with
  | [localPart, domain] =>
    !localPart.isEmpty && !domain.isEmpty &&
    localPart.all emailOkChar && domain.all emailOkChar &&
    (domain.drop 1).dropLast.contains '.'
  | _ => false

/-- The CPF check `/^\d\x7b11\x7d$/.test(cpf.replace(/\D/g, ''))`:
after stripping non-digits exactly 11 digits remain. -/
def cpfMatches (s : String) : Bool :=
  (s.data.filter (fun c => c.isDigit)).length == 11

/-- Body of `POST /auth/register`. -/
structure RegisterRequest where
  name : Option String := none
  email : Option String := none
  cpf : Option String := none
  password : Option String := none
  walletAddress : Option String := none
deriving Repr, DecidableEq

/-- Field access by name, as the missing-fields filter does. -/
def RegisterRequest.fieldValue (u : RegisterRequest) : String → Option String
  | "name" => u.name
  | "email" => u.email
  | "cpf" => u.cpf
  | "password" => u.password
  | _ => none

/-- Outcome of the `POST /auth/register` validation chain: either a local
400 response (no upstream call) or the forwarding of the body to
`orchestratorService.register`. -/
inductive AuthRegisterOutcome where
  | localReject (e : ApiError)
  | forwardRegister (u : RegisterRequest)
deriving Repr, DecidableEq

/-- The required-field filter of `POST /auth/register`:
`requiredFields.filter(field => !userData[field])`. -/
def registerMissing (u : RegisterRequest) : List String :=
  ["name", "email", "cpf", "password"].filter (fun f => !jsTruthyStr (u.fieldValue f))

/-- The `POST /auth/register` validation chain: missing required fields,
email format, CPF format, then — only when a wallet address was provided
— the wallet pattern; any failure answers 400 locally and only a fully
valid body reaches the upstream call. -/
def registerRoute (u : RegisterRequest) : AuthRegisterOutcome :=
  if (registerMissing u).length ≠ 0 then
    .localReject ⟨"Missing required fields", 400,
      some ((registerMissing u).map (fun f => f ++ " is required"))⟩
  else if emailMatches (u.email.getD "") = false then
    .localReject ⟨"Invalid email format", 400, none⟩
  else if cpfMatches (u.cpf.getD "") = false then
    .localReject ⟨"Invalid CPF format. Must be 11 digits", 400, none⟩
  else if jsTruthyStr u.walletAddress = true ∧
      isValidWalletAddress (u.walletAddress.getD "") = false then
    .localReject ⟨"Invalid wallet address format", 400, none⟩
  else
    .forwardRegister u

/-- Outcome of `PUT /auth/wallet`: local 400 or the forwarding of the
update to `orchestratorService.updateWallet`. -/
inductive WalletUpdateOutcome where
  | localReject (e : ApiError)
  | forwardUpdate (userId : String) (walletAddress : String)
deriving Repr, DecidableEq

/-- The `PUT /auth/wallet` handler's validation: a missing/empty address
answers 400 `Wallet address is required`, an address failing the wallet
pattern answers 400 `Invalid wallet address format`, and only a valid
one is forwarded upstream. -/
def walletUpdateRoute (userId : String) (walletAddress : Option String) : WalletUpdateOutcome :=
  if jsTruthyStr walletAddress = false then
    .localReject ⟨"Wallet address is required", 400, none⟩
  else if isValidWalletAddress (walletAddress.getD "") = false then
    .localReject ⟨"Invalid wallet address format", 400, none⟩
  else
    .forwardUpdate userId (walletAddress.getD "")

/-- Outcome of `GET /properties/owner/:walletAddress`: local 400 or the
forwarding of the lookup to `offchainService.getPropertiesByOwner`. -/
inductive OwnerRouteOutcome where
  | localReject (e : ApiError)
  | forwardOwnerLookup (walletAddress : String)
deriving Repr, DecidableEq

/-- The `GET /properties/owner/:walletAddress` handler's validation: an
address failing the wallet pattern answers 400 locally, otherwise the
lookup is forwarded to the blockchain client. -/
def propertiesByOwnerRoute (walletAddress : String) : OwnerRouteOutcome :=
  if isValidWalletAddress walletAddress = false then
    .localReject ⟨"Invalid wallet address format", 400, none⟩
  else
    .forwardOwnerLookup walletAddress

/-! ### `POST /transfers/configure` (`transfer.routes.ts`) -/

/-- Body of `POST /transfers/configure`. -/
structure ConfigureBody where
  matriculaId : Option String := none
  toWalletAddress : Option String := none
  toCpf : Option String := none
deriving Repr, DecidableEq

/-- The caller's profile from `orchestratorService.getUserProfile`; only
`walletAddress` is inspected. -/
structure UserProfile where
  walletAddress : Option String := none
deriving Repr, DecidableEq

/-- A property as listed by `orchestratorService.getAllProperties`; only
`matriculaId` and `proprietario` are inspected. -/
structure PropertyRecord where
  matriculaId : Nat
  proprietario : Option String := none
deriving Repr, DecidableEq

/-- An approver record from `offchainService.getApprovers`. -/
structure ApproverRecord where
  wallet : String
  active : Bool
deriving Repr, DecidableEq

/-- The argument object passed to `offchainService.configureTransfer`. -/
structure ConfigureArgs where
  fromWallet : String
  toWallet : String
  matriculaId : Nat
  approvers : List String
deriving Repr, DecidableEq

/-- Upstream calls the configure handler can issue, in program order. -/
inductive UpstreamEvent where
  | getAllProperties
  | getUserProfile
  | isIdentityVerified (wallet : String)
  | registerIdentityCall (wallet : String)
  | getApprovers
  | configureTransferCall (args : ConfigureArgs)
deriving Repr, DecidableEq

/-- The outcomes the environment (the two upstream services) would hand
each call the configure handler can make. -/
structure ConfigureEnv where
  allProperties : Except ApiError (List PropertyRecord)
  userProfile : Except ApiError UserProfile
  identityVerified : Except ApiError Bool
  registerIdentityResult : Except ApiError RegisterIdentityResult
  approvers : Except ApiError (List ApproverRecord)
  configureResult : Except ApiError String

/-- JavaScript `Number(s)` restricted to the route ids in play: a
non-empty all-digit string parses to its decimal value, anything else is
`NaN` (here `none`). -/
def jsNumberNat (s : String) : Option Nat :=
  if s.data ≠ [] ∧ s.data.all Char.isDigit then
    some (s.data.foldl (fun acc c => acc * 10 + (c.toNat - 48)) 0)
  else none

/-- The property lookup performed by the configure handler:
`allProperties.find(p => p.matriculaId === Number(matriculaId))`. -/
def findProperty (allProps : List PropertyRecord) (mid : String) : Option PropertyRecord :=
  match jsNumberNat mid with
  | some n => allProps.find? (fun p => p.matriculaId == n)
  | none => none

/-- The hardcoded admin wallet used when fetching approvers fails or
yields no active approver. -/
def fallbackApproverWallet : String := "0x627306090abaB3A6e1400e9345bC60c78a8BEf57"

/-- JavaScript `toLowerCase` on the ASCII addresses involved. -/
def strToLower (s : String) : String := String.mk (s.data.map Char.toLower)

/-- The 500 error thrown by the configure handler's catch block around
the recipient identity verification/registration step. -/
def recipientValidationError : ApiError :=
  ⟨"Falha ao validar destinatário. Tente novamente.", 500, none⟩

/-- The active-approver list used by the configure handler: on a failed
`getApprovers` call, or when the fetched list has no active approver, the
hardcoded admin wallet is substituted. -/
def activeApproversFrom (approversRes : Except ApiError (List ApproverRecord)) : List String :=
  match approversRes with
  | .error _ => [fallbackApproverWallet]
  | .ok l =>
    if ((l.filter (fun a => a.active)).map (fun a => a.wallet)).length = 0 then
      [fallbackApproverWallet]
    else
      (l.filter (fun a => a.active)).map (fun a => a.wallet)

/-- The argument object the configure handler passes to
`offchainService.configureTransfer`. -/
def configureArgsFor (body : ConfigureBody) (property : PropertyRecord)
    (approvers : List String) : ConfigureArgs :=
  { fromWallet := property.proprietario.getD ""
    toWallet := body.toWalletAddress.getD ""
    matriculaId := (jsNumberNat (body.matriculaId.getD "")).getD 0
    approvers := approvers }

/-- The tail of the configure handler after the identity step: fetch the
approvers (with fallback) and relay the `configureTransfer` result with
200, or propagate its error. -/
def configureFinish (body : ConfigureBody) (env : ConfigureEnv) (property : PropertyRecord)
    (pre : List UpstreamEvent) : List UpstreamEvent × Except ApiError (Nat × String) :=
  (pre ++ [UpstreamEvent.getApprovers,
           UpstreamEvent.configureTransferCall
             (configureArgsFor body property (activeApproversFrom env.approvers))],
   match env.configureResult with
   | .error e => .error e
   | .ok r => .ok (200, r))

/-- The `POST /transfers/configure` handler.  Returns the list of
upstream calls actually issued (in order) together with the response:
body checks first (no upstream call), then the property lookup over
`getAllProperties` (404 when `Number(matriculaId)` matches no property),
the profile lookup (400 when the caller has no wallet on file, 403 when
the lowercased wallets differ or the property has no recorded owner),
the CPF-path rejection, the recipient identity step (any throw inside
the try becomes a 500), the approver fetch with the admin-wallet
fallback, and finally the `configureTransfer` call whose result is
relayed with 200. -/
def configureTransferRoute (body : ConfigureBody) (env : ConfigureEnv) :
    List UpstreamEvent × Except ApiError (Nat × String) :=
  if jsTruthyStr body.matriculaId = false then
    ([], .error ⟨"matriculaId é obrigatório", 400, none⟩)
  else if jsTruthyStr body.toWalletAddress = false ∧ jsTruthyStr body.toCpf = false then
    ([], .error ⟨"toWalletAddress ou toCpf é obrigatório", 400, none⟩)
  else
    match env.allProperties with
    | .error e => ([.getAllProperties], .error e)
    | .ok allProps =>
      match findProperty allProps (body.matriculaId.getD "") with
      | none => ([.getAllProperties], .error ⟨"Propriedade não encontrada", 404, none⟩)
      | some property =>
        match env.userProfile with
        | .error e => ([.getAllProperties, .getUserProfile], .error e)
        | .ok user =>
          if jsTruthyStr user.walletAddress = false then
            ([.getAllProperties, .getUserProfile],
             .error ⟨"Você precisa conectar sua carteira antes de transferir propriedades",
                     400, none⟩)
          else if jsTruthyStr (property.proprietario.map strToLower) = false ∨
              strToLower (user.walletAddress.getD "") ≠
                (property.proprietario.map strToLower).getD "" then
            ([.getAllProperties, .getUserProfile],
             .error ⟨"Você não é o proprietário desta propriedade", 403, none⟩)
          else if jsTruthyStr body.toCpf = true ∧ jsTruthyStr body.toWalletAddress = false then
            ([.getAllProperties, .getUserProfile],
             .error ⟨"Transferência por CPF ainda não implementada. Use wallet address.",
                     400, none⟩)
          else
            match env.identityVerified with
            | .error _ =>
              ([.getAllProperties, .getUserProfile,
                .isIdentityVerified (body.toWalletAddress.getD "")],
               .error recipientValidationError)
            | .ok true =>
              configureFinish body env property
                [.getAllProperties, .getUserProfile,
                 .isIdentityVerified (body.toWalletAddress.getD "")]
            | .ok false =>
              match env.registerIdentityResult with
              | .error _ =>
                ([.getAllProperties, .getUserProfile,
                  .isIdentityVerified (body.toWalletAddress.getD ""),
                  .registerIdentityCall (body.toWalletAddress.getD "")],
                 .error recipientValidationError)
              | .ok _ =>
                configureFinish body env property
                  [.getAllProperties, .getUserProfile,
                   .isIdentityVerified (body.toWalletAddress.getD ""),
                   .registerIdentityCall (body.toWalletAddress.getD "")]

/-! ## Theorems -/

/-- C1 (counterexample): with a successful DB metadata lookup and a failing
blockchain lookup (offchain service unavailable), the
`GET /properties/:matriculaId/full` handler does not answer 200 with
defaulted blockchain fields — the blockchain error propagates unchanged,
so the response is the 503 error envelope, a 5xx. -/
theorem propertyFullRoute_bcFailure_counterexample :
    propertyFullRoute "123" "2024-01-01T00:00:00Z"
      (.ok ⟨123, 45, "Centro", "Rua A, 1", 100, "0xOwnerWallet", "URBANO", some true,
            none, none, some "2024-01-01", none⟩)
      (.error ⟨"Blockchain service is unavailable", 503, none⟩) =
      .error ⟨"Blockchain service is unavailable", 503, none⟩ := rfl

/-- C1 (amended): when the DB lookup succeeds, a blockchain-lookup failure
propagates as the response error (no 200, no defaulting), while a
successful blockchain lookup yields a 200 response whose `dbData` fields
come from the DB record and whose `blockchainData` fields default to
`'pending'`/`false`/the DB `proprietario` exactly when the corresponding
blockchain fields are absent. -/
theorem propertyFullRoute_merge (matriculaId now : String) (db : DbProperty) :
    (∀ e : ApiError, propertyFullRoute matriculaId now (.ok db) (.error e) = .error e) ∧
    (∀ bc : BcProperty,
      propertyFullRoute matriculaId now (.ok db) (.ok bc) =
        .ok (200, mergePropertyFull matriculaId now db bc)) ∧
    (∀ bc : BcProperty,
      (mergePropertyFull matriculaId now db bc).dbData.matriculaId = db.matriculaId ∧
      (mergePropertyFull matriculaId now db bc).dbData.proprietario = db.proprietario ∧
      (mergePropertyFull matriculaId now db bc).dbData.endereco = db.endereco) ∧
    (∀ bc : BcProperty, bc.status = none →
      (mergePropertyFull matriculaId now db bc).blockchainData.status = "pending") ∧
    (∀ bc : BcProperty, bc.isFrozen = none →
      (mergePropertyFull matriculaId now db bc).blockchainData.isFrozen = false) ∧
    (∀ bc : BcProperty, bc.ownerWallet = none →
      (mergePropertyFull matriculaId now db bc).blockchainData.ownerWallet = db.proprietario) := by
  refine ⟨fun e => rfl, fun bc => rfl, fun bc => ⟨rfl, rfl, rfl⟩, ?_, ?_, ?_⟩
  · intro bc h
    simp [mergePropertyFull, jsOrStr, h]
  · intro bc h
    simp [mergePropertyFull, h]
  · intro bc h
    simp [mergePropertyFull, jsOrStr, h]

/-- C1 (witness for the amended theorem): concrete evaluation of the
blank-field defaulting at a blockchain record with every field absent. -/
theorem propertyFullRoute_merge_witness :
    (mergePropertyFull "77" "t0"
      ⟨77, 1, "C", "E", 50, "0xDbOwner", "RURAL", none, none, none, none, none⟩
      ⟨none, none, none, none, none⟩).blockchainData.status = "pending" ∧
    (mergePropertyFull "77" "t0"
      ⟨77, 1, "C", "E", 50, "0xDbOwner", "RURAL", none, none, none, none, none⟩
      ⟨none, none, none, none, none⟩).blockchainData.isFrozen = false ∧
    (mergePropertyFull "77" "t0"
      ⟨77, 1, "C", "E", 50, "0xDbOwner", "RURAL", none, none, none, none, none⟩
      ⟨none, none, none, none, none⟩).blockchainData.ownerWallet = "0xDbOwner" := by
  refine ⟨?_, ?_, ?_⟩
  · exact (propertyFullRoute_merge "77" "t0"
      ⟨77, 1, "C", "E", 50, "0xDbOwner", "RURAL", none, none, none, none, none⟩).2.2.2.1
      ⟨none, none, none, none, none⟩ rfl
  · exact (propertyFullRoute_merge "77" "t0"
      ⟨77, 1, "C", "E", 50, "0xDbOwner", "RURAL", none, none, none, none, none⟩).2.2.2.2.1
      ⟨none, none, none, none, none⟩ rfl
  · exact (propertyFullRoute_merge "77" "t0"
      ⟨77, 1, "C", "E", 50, "0xDbOwner", "RURAL", none, none, none, none, none⟩).2.2.2.2.2
      ⟨none, none, none, none, none⟩ rfl

/-- C4: when the DB lookup for a transfer status fails (entity absent or
orchestrator error) but the blockchain lookup returns a record, the
handler answers 200 with that blockchain record as the body, verbatim. -/
theorem transferStatusRoute_fallback (transferId : String) (e : ApiError) (bc : BcTransfer) :
    transferStatusRoute transferId (.error e) (.ok bc) = .ok (200, .raw bc) := rfl

/-- C8: the code contradicts its own documented idempotence.  The message
`'Identidade já registrada'` does contain `'já'`, yet `registerIdentity`
rethrows the error for an upstream 400 carrying that message instead of
resolving with `{success: true, alreadyRegistered: true}`: the response
interceptor has already replaced the axios error by an `AppError`, which
has no `response` field, so the catch block's
`error.response?.data?.message?.includes('já')` is never true. -/
theorem registerIdentity_alreadyRegistered_propagates :
    messageIndicatesAlreadyRegistered "Identidade já registrada" = true ∧
    registerIdentity (.error (.response 400 (some "Identidade já registrada") none)) =
      .error ⟨"Identidade já registrada", 400, none⟩ ∧
    registerIdentity (.error (.response 400 (some "Identidade já registrada") none)) ≠
      .ok ⟨true, some true⟩ := by
  refine ⟨by decide, rfl, fun h => nomatch h⟩

/-- C9 (counterexample): for an upstream error response that carries a
structured field-level error list, the blockchain client's interceptor
does not preserve that list — the resulting `AppError` has `errors`
absent. -/
theorem offchainInterceptor_dropsErrors_counterexample :
    (offchainInterceptor (.response 400 (some "Validation failed")
        (some ["campo: invalido"]))).errors = none ∧
    offchainInterceptor (.response 400 (some "Validation failed") (some ["campo: invalido"])) ≠
      ⟨"Validation failed", 400, some ["campo: invalido"]⟩ := by
  refine ⟨rfl, by decide⟩

/-- C9 (amended): both clients classify failures exactly three ways —
upstream error response: pass-through of the upstream message and status
code, with the structured error list preserved by the Orchestrator client
but dropped by the blockchain client; no response received: 503 with the
client-specific unavailable message; request construction failure:
generic 500. -/
theorem interceptor_classification :
    (∀ (st : Nat) (m : String) (errs : Option (List String)), m ≠ "" →
      orchestratorInterceptor (.response st (some m) errs) = ⟨m, st, errs⟩ ∧
      offchainInterceptor (.response st (some m) errs) = ⟨m, st, none⟩) ∧
    orchestratorInterceptor .request = ⟨"Orchestrator service is unavailable", 503, none⟩ ∧
    offchainInterceptor .request = ⟨"Blockchain service is unavailable", 503, none⟩ ∧
    orchestratorInterceptor .setup = ⟨"Failed to call Orchestrator service", 500, none⟩ ∧
    offchainInterceptor .setup = ⟨"Failed to call blockchain service", 500, none⟩ := by
  refine ⟨?_, rfl, rfl, rfl, rfl⟩
  intro st m errs hm
  constructor
  · simp [orchestratorInterceptor, jsOrStr, hm]
  · simp [offchainInterceptor, jsOrStr, hm]

/-- C9 (witness for the amended theorem): concrete pass-through of an
upstream 422 with a field-level error list through both interceptors. -/
theorem interceptor_classification_witness :
    orchestratorInterceptor (.response 422 (some "Dados inválidos") (some ["cpf: inválido"])) =
      ⟨"Dados inválidos", 422, some ["cpf: inválido"]⟩ ∧
    offchainInterceptor (.response 422 (some "Dados inválidos") (some ["cpf: inválido"])) =
      ⟨"Dados inválidos", 422, none⟩ := by
  exact interceptor_classification.1 422 "Dados inválidos" (some ["cpf: inválido"]) (by decide)

/-- C10 (implicit): if either upstream call of `GET /transfers/my` fails,
the handler answers 200 with an empty array; the same 200-with-`[]`
response also arises on a fully successful run with no matching
transfers, so the two are indistinguishable to the caller. -/
theorem myTransfersRoute_failureYieldsEmpty :
    (∀ (e : ApiError) (ts : Except ApiError (List TransferRec)),
      myTransfersRoute (.error e) ts = (200, [])) ∧
    (∀ (props : List DbProperty) (e : ApiError),
      myTransfersRoute (.ok props) (.error e) = (200, [])) ∧
    myTransfersRoute (.ok []) (.ok []) = (200, []) := by
  exact ⟨fun e ts => rfl, fun props e => rfl, rfl⟩

/-- C3: on `GET /transfers/:transferId/status` with a successful DB lookup,
when the blockchain lookup also succeeds and its record reports a status
and an approvals list, the response's `status` and `approvals` equal the
blockchain record's values; when the blockchain lookup fails, they equal
the DB record's values, with `approvals` defaulting to `[]` and
`buyerAccepted` to `false` when absent. -/
theorem transferStatusRoute_blockchainWins (transferId : String) (db : DbTransfer) :
    (∀ (bc : BcTransfer) (s : String) (l : List Approval),
      bc.status = some s → s ≠ "" → bc.approvals = some l →
      transferStatusRoute transferId (.ok db) (.ok bc) =
        .ok (200, .merged (mergeTransferStatus transferId db (some bc))) ∧
      (mergeTransferStatus transferId db (some bc)).status = s ∧
      (mergeTransferStatus transferId db (some bc)).approvals = l) ∧
    (∀ e : ApiError,
      transferStatusRoute transferId (.ok db) (.error e) =
        .ok (200, .merged (mergeTransferStatus transferId db none)) ∧
      (mergeTransferStatus transferId db none).status = db.status ∧
      (mergeTransferStatus transferId db none).approvals = db.approvals.getD [] ∧
      (mergeTransferStatus transferId db none).buyerAccepted = false) := by
  constructor
  · intro bc s l hs hne ha
    refine ⟨rfl, ?_, ?_⟩
    · simp [mergeTransferStatus, hs, jsOrStr, hne]
    · simp [mergeTransferStatus, ha, Option.orElse]
  · intro e
    exact ⟨rfl, rfl, rfl, rfl⟩

/-- C3 (witness): concrete transfer where the blockchain record reports
`approved` with one approval, overriding the DB's `PENDING`, and the same
DB record with a failed blockchain lookup falling back to the DB values. -/
theorem transferStatusRoute_blockchainWins_witness :
    (mergeTransferStatus "T1"
      ⟨some "T1", "123", "0xSeller", "0xBuyer", "PENDING", some [⟨"CARTORIO", false, none⟩],
       "2024-01-01"⟩
      (some ⟨some "approved", some [⟨"CARTORIO", true, some "2024-02-02"⟩], some true⟩)).status =
      "approved" ∧
    (mergeTransferStatus "T1"
      ⟨some "T1", "123", "0xSeller", "0xBuyer", "PENDING", some [⟨"CARTORIO", false, none⟩],
       "2024-01-01"⟩
      (some ⟨some "approved", some [⟨"CARTORIO", true, some "2024-02-02"⟩], some true⟩)).approvals =
      [⟨"CARTORIO", true, some "2024-02-02"⟩] ∧
    (mergeTransferStatus "T1"
      ⟨some "T1", "123", "0xSeller", "0xBuyer", "PENDING", some [⟨"CARTORIO", false, none⟩],
       "2024-01-01"⟩ none).status = "PENDING" := by
  refine ⟨?_, ?_, ?_⟩
  · exact ((transferStatusRoute_blockchainWins "T1" _).1
      ⟨some "approved", some [⟨"CARTORIO", true, some "2024-02-02"⟩], some true⟩
      "approved" [⟨"CARTORIO", true, some "2024-02-02"⟩] rfl (by decide) rfl).2.1
  · exact ((transferStatusRoute_blockchainWins "T1" _).1
      ⟨some "approved", some [⟨"CARTORIO", true, some "2024-02-02"⟩], some true⟩
      "approved" [⟨"CARTORIO", true, some "2024-02-02"⟩] rfl (by decide) rfl).2.2
  · exact ((transferStatusRoute_blockchainWins "T1"
      ⟨some "T1", "123", "0xSeller", "0xBuyer", "PENDING", some [⟨"CARTORIO", false, none⟩],
       "2024-01-01"⟩).2 ⟨"Blockchain service is unavailable", 503, none⟩).2.1

/-- C5: for a non-empty DB property list, `GET /properties/my` answers 200
with exactly one entry per DB property in order; every entry carries the
translated DB fields, an entry whose enrichment lookup failed carries
`blockchain: null`, and no single failure affects the response status or
the other entries. -/
theorem myPropertiesRoute_fanout (dbProps : List DbProperty)
    (bcLookup : Nat → Except ApiError BcProperty) (hne : dbProps ≠ []) :
    myPropertiesRoute (.ok dbProps) bcLookup =
      .ok (200, dbProps.map (fun p => enrichProperty p (bcLookup p.matriculaId))) ∧
    (dbProps.map (fun p => enrichProperty p (bcLookup p.matriculaId))).length =
      dbProps.length ∧
    (∀ (db : DbProperty) (bcRes : Except ApiError BcProperty),
      (enrichProperty db bcRes).ownerWalletAddress = db.proprietario ∧
      (enrichProperty db bcRes).propertyType = db.tipo ∧
      (enrichProperty db bcRes).regularStatus =
        (if db.isRegular.getD false then "REGULAR" else "IRREGULAR")) ∧
    (∀ (db : DbProperty) (e : ApiError), (enrichProperty db (.error e)).blockchain = none) ∧
    (∀ (db : DbProperty) (bc : BcProperty), (enrichProperty db (.ok bc)).blockchain = some bc) := by
  have h0 : ¬ dbProps.length = 0 := by simpa [List.length_eq_zero] using hne
  refine ⟨?_, by simp, fun db bcRes => ⟨rfl, rfl, rfl⟩, fun db e => rfl, fun db bc => rfl⟩
  simp [myPropertiesRoute, h0]

/-- A two-property DB listing used to witness the fan-out behaviour. -/
def sampleDbPropA : DbProperty :=
  ⟨1, 10, "Centro", "Rua A, 1", 100, "0xOwnerA", "URBANO", some true, none,
   some "0xhashA", some "2024-01-01", none⟩

/-- Second sample property; its blockchain lookup fails. -/
def sampleDbPropB : DbProperty :=
  ⟨2, 20, "Litoral", "Rua B, 2", 200, "0xOwnerB", "LITORAL", none, none, none, none, none⟩

/-- Sample enrichment: succeeds for matricula 1, fails for all others. -/
def sampleBcLookup : Nat → Except ApiError BcProperty := fun n =>
  if n = 1 then .ok ⟨some "0xOwnerA", some "1", some "0xtx", some "active", some false⟩
  else .error ⟨"Blockchain service is unavailable", 503, none⟩

/-- C5 (witness): the two-property listing with one failing enrichment
still answers 200 with both entries, the failed one carrying
`blockchain: null`. -/
theorem myPropertiesRoute_fanout_witness :
    myPropertiesRoute (.ok [sampleDbPropA, sampleDbPropB]) sampleBcLookup =
      .ok (200, [sampleDbPropA, sampleDbPropB].map
        (fun p => enrichProperty p (sampleBcLookup p.matriculaId))) ∧
    (enrichProperty sampleDbPropB (.error ⟨"Blockchain service is unavailable", 503,
        none⟩)).blockchain = none := by
  constructor
  · exact (myPropertiesRoute_fanout [sampleDbPropA, sampleDbPropB] sampleBcLookup
      (by decide)).1
  · exact (myPropertiesRoute_fanout [sampleDbPropA, sampleDbPropB] sampleBcLookup
      (by decide)).2.2.2.1 sampleDbPropB ⟨"Blockchain service is unavailable", 503, none⟩

/-- C2: the authenticating guard rejects a missing `Authorization` header
with 401 and the no-header message, a header not splitting into exactly
`Bearer <token>` with 401 and the distinct bad-format message, an expired
token with 401 `Token expired`, an invalid token with 401 `Invalid
token`, and only on successful verification attaches the decoded
`{userId, email, role}` claims. -/
theorem authenticateJWT_classification (verify : String → VerifyResult) :
    authenticateJWT verify none = .error noHeaderError ∧
    (∀ h : String,
      (jsSplit h ' ').length ≠ 2 ∨ (jsSplit h ' ').headD "" ≠ "Bearer" →
      authenticateJWT verify (some h) = .error badFormatError) ∧
    (∀ h t : String, jsSplit h ' ' = ["Bearer", t] → verify t = .expired →
      authenticateJWT verify (some h) = .error ⟨"Token expired", 401, none⟩) ∧
    (∀ h t : String, jsSplit h ' ' = ["Bearer", t] → verify t = .invalid →
      authenticateJWT verify (some h) = .error ⟨"Invalid token", 401, none⟩) ∧
    (∀ (h t : String) (c : JwtClaims), jsSplit h ' ' = ["Bearer", t] → verify t = .ok c →
      authenticateJWT verify (some h) = .ok c) ∧
    (noHeaderError ≠ badFormatError ∧ noHeaderError.statusCode = 401 ∧
      badFormatError.statusCode = 401 ∧
      badFormatError.message ≠ "Token expired" ∧
      ("Token expired" : String) ≠ "Invalid token") := by
  refine ⟨rfl, ?_, ?_, ?_, ?_, by decide, rfl, rfl, by decide, by decide⟩
  · intro h hcond
    simp only [authenticateJWT]
    rw [if_pos hcond]
  · intro h t hsplit hv
    simp only [authenticateJWT, hsplit]
    rw [if_neg (by simp)]
    simp [hv]
  · intro h t hsplit hv
    simp only [authenticateJWT, hsplit]
    rw [if_neg (by simp)]
    simp [hv]
  · intro h t c hsplit hv
    simp only [authenticateJWT, hsplit]
    rw [if_neg (by simp)]
    simp [hv]

/-- A concrete verifier used to witness the guard's classification. -/
def sampleVerify : String → VerifyResult := fun t =>
  if t = "goodtoken" then .ok ⟨"1", "a@b.com", "USER"⟩
  else if t = "expiredtoken" then .expired
  else .invalid

/-- C2 (witness): concrete evaluation of all five guard outcomes. -/
theorem authenticateJWT_classification_witness :
    authenticateJWT sampleVerify none = .error noHeaderError ∧
    authenticateJWT sampleVerify (some "Token abc") = .error badFormatError ∧
    authenticateJWT sampleVerify (some "Bearer expiredtoken") =
      .error ⟨"Token expired", 401, none⟩ ∧
    authenticateJWT sampleVerify (some "Bearer abc") = .error ⟨"Invalid token", 401, none⟩ ∧
    authenticateJWT sampleVerify (some "Bearer goodtoken") = .ok ⟨"1", "a@b.com", "USER"⟩ := by
  refine ⟨(authenticateJWT_classification sampleVerify).1,
    (authenticateJWT_classification sampleVerify).2.1 "Token abc" (by decide),
    (authenticateJWT_classification sampleVerify).2.2.1 "Bearer expiredtoken" "expiredtoken"
      (by decide) (by decide),
    (authenticateJWT_classification sampleVerify).2.2.2.1 "Bearer abc" "abc"
      (by decide) (by decide),
    (authenticateJWT_classification sampleVerify).2.2.2.2.1 "Bearer goodtoken" "goodtoken"
      ⟨"1", "a@b.com", "USER"⟩ (by decide) (by decide)⟩

/-- C6 (counterexample): on `POST /transfers/configure` an invalid
recipient wallet address is not rejected locally with 400: with
`toWalletAddress = "0xNOTHEX"`, which fails the wallet pattern, the
handler still issues its upstream calls and completes the transfer
configuration with 200, forwarding the invalid address on-chain. -/
theorem configureRoute_noWalletValidation_counterexample :
    isValidWalletAddress "0xNOTHEX" = false ∧
    configureTransferRoute
      ⟨some "123", some "0xNOTHEX", none⟩
      ⟨.ok [⟨123, some "0xAbC"⟩], .ok ⟨some "0xabc"⟩, .ok true,
       .ok ⟨true, none⟩, .ok [⟨"0xApprover", true⟩], .ok "configured"⟩ =
      ([.getAllProperties, .getUserProfile, .isIdentityVerified "0xNOTHEX",
        .getApprovers, .configureTransferCall ⟨"0xAbC", "0xNOTHEX", 123, ["0xApprover"]⟩],
       .ok (200, "configured")) := ⟨by decide, rfl⟩

/-- C6 (amended): the register, wallet-update and properties-by-owner
routes reject a wallet address failing the `^0x[a-fA-F0-9]\x7b40\x7d$`
pattern locally with 400 and `Invalid wallet address format` before any
upstream call; the transfer-configure route performs no wallet-format
validation at all. -/
theorem walletValidation_routes (w : String) (hw : isValidWalletAddress w = false) :
    (∀ u : RegisterRequest, u.walletAddress = some w → w ≠ "" →
      (registerMissing u).length = 0 →
      emailMatches (u.email.getD "") = true →
      cpfMatches (u.cpf.getD "") = true →
      registerRoute u = .localReject ⟨"Invalid wallet address format", 400, none⟩) ∧
    (∀ userId : String, w ≠ "" →
      walletUpdateRoute userId (some w) =
        .localReject ⟨"Invalid wallet address format", 400, none⟩) ∧
    propertiesByOwnerRoute w = .localReject ⟨"Invalid wallet address format", 400, none⟩ := by
  refine ⟨?_, ?_, ?_⟩
  · intro u hu hw0 hmiss hemail hcpf
    unfold registerRoute
    rw [if_neg (by simp [hmiss]), if_neg (by simp [hemail]), if_neg (by simp [hcpf]),
        if_pos ⟨by simp [hu, jsTruthyStr, hw0], by simp [hu, hw]⟩]
  · intro userId hw0
    unfold walletUpdateRoute
    rw [if_neg (by simp [jsTruthyStr, hw0]), if_pos (by simp [hw])]
  · unfold propertiesByOwnerRoute
    rw [if_pos hw]

/-- C6 (witness for the amended theorem): the too-short address `0x123`
is rejected locally by all three validating routes. -/
theorem walletValidation_routes_witness :
    registerRoute ⟨some "Ana", some "a@b.com", some "12345678901", some "pw", some "0x123"⟩ =
      .localReject ⟨"Invalid wallet address format", 400, none⟩ ∧
    walletUpdateRoute "7" (some "0x123") =
      .localReject ⟨"Invalid wallet address format", 400, none⟩ ∧
    propertiesByOwnerRoute "0x123" =
      .localReject ⟨"Invalid wallet address format", 400, none⟩ := by
  refine ⟨(walletValidation_routes "0x123" (by decide)).1
      ⟨some "Ana", some "a@b.com", some "12345678901", some "pw", some "0x123"⟩ rfl
      (by decide) (by decide) (by decide) (by decide),
    (walletValidation_routes "0x123" (by decide)).2.1 "7" (by decide),
    (walletValidation_routes "0x123" (by decide)).2.2⟩

/-- C7: on `POST /transfers/configure`, once the property and the
caller's profile are resolved — a caller with no wallet on file is
rejected with 400; a caller whose lowercased wallet differs from the
property's lowercased owner wallet (or a property with no recorded
owner) is rejected with 403; a throw in the recipient identity
verification or registration step yields the 500 recipient-validation
error; and when fetching approvers fails or yields no active approver,
the fixed admin fallback approver is substituted and the
`configureTransfer` call still proceeds, its result relayed with 200. -/
theorem configureRoute_businessRules (body : ConfigureBody) (env : ConfigureEnv)
    (props : List PropertyRecord) (property : PropertyRecord) (user : UserProfile)
    (hm : jsTruthyStr body.matriculaId = true)
    (hto : jsTruthyStr body.toWalletAddress = true)
    (hprops : env.allProperties = .ok props)
    (hfind : findProperty props (body.matriculaId.getD "") = some property)
    (huser : env.userProfile = .ok user) :
    (jsTruthyStr user.walletAddress = false →
      (configureTransferRoute body env).2 =
        .error ⟨"Você precisa conectar sua carteira antes de transferir propriedades",
                400, none⟩) ∧
    (jsTruthyStr user.walletAddress = true →
      (jsTruthyStr (property.proprietario.map strToLower) = false ∨
        strToLower (user.walletAddress.getD "") ≠
          (property.proprietario.map strToLower).getD "") →
      (configureTransferRoute body env).2 =
        .error ⟨"Você não é o proprietário desta propriedade", 403, none⟩) ∧
    (jsTruthyStr user.walletAddress = true →
      ¬(jsTruthyStr (property.proprietario.map strToLower) = false ∨
        strToLower (user.walletAddress.getD "") ≠
          (property.proprietario.map strToLower).getD "") →
      (∀ e : ApiError, env.identityVerified = .error e →
        (configureTransferRoute body env).2 = .error recipientValidationError) ∧
      (∀ e : ApiError, env.identityVerified = .ok false →
        env.registerIdentityResult = .error e →
        (configureTransferRoute body env).2 = .error recipientValidationError) ∧
      (env.identityVerified = .ok true →
        ((∃ ea : ApiError, env.approvers = .error ea) ∨
         (∃ l : List ApproverRecord, env.approvers = .ok l ∧
            l.filter (fun a => a.active) = [])) →
        UpstreamEvent.configureTransferCall
            (configureArgsFor body property [fallbackApproverWallet]) ∈
          (configureTransferRoute body env).1 ∧
        (∀ r : String, env.configureResult = .ok r →
          (configureTransferRoute body env).2 = .ok (200, r)))) := by
  refine ⟨?_, ?_, ?_⟩
  · intro hnw
    simp only [configureTransferRoute, hprops, hfind, huser]
    rw [if_neg (by simp [hm]), if_neg (by simp [hto]), if_pos hnw]
  · intro hwallet hmis
    simp only [configureTransferRoute, hprops, hfind, huser]
    rw [if_neg (by simp [hm]), if_neg (by simp [hto]), if_neg (by simp [hwallet]),
        if_pos hmis]
  · intro hwallet hown
    refine ⟨?_, ?_, ?_⟩
    · intro e hid
      simp only [configureTransferRoute, hprops, hfind, huser]
      rw [if_neg (by simp [hm]), if_neg (by simp [hto]), if_neg (by simp [hwallet]),
          if_neg hown, if_neg (by simp [hto]), hid]
    · intro e hid hreg
      simp only [configureTransferRoute, hprops, hfind, huser]
      rw [if_neg (by simp [hm]), if_neg (by simp [hto]), if_neg (by simp [hwallet]),
          if_neg hown, if_neg (by simp [hto]), hid, hreg]
    · intro hid happr
      have hact : activeApproversFrom env.approvers = [fallbackApproverWallet] := by
        rcases happr with ⟨ea, hea⟩ | ⟨l, hl, hfl⟩
        · rw [hea]
          rfl
        · rw [hl]
          simp [activeApproversFrom, hfl]
      constructor
      · simp only [configureTransferRoute, hprops, hfind, huser]
        rw [if_neg (by simp [hm]), if_neg (by simp [hto]), if_neg (by simp [hwallet]),
            if_neg hown, if_neg (by simp [hto]), hid]
        simp [configureFinish, hact]
      · intro r hr
        simp only [configureTransferRoute, hprops, hfind, huser]
        rw [if_neg (by simp [hm]), if_neg (by simp [hto]), if_neg (by simp [hwallet]),
            if_neg hown, if_neg (by simp [hto]), hid]
        simp [configureFinish, hr]

/-- C7 (witness): concrete runs exercising the 400 no-wallet rejection,
the 403 case-insensitive ownership rejection, the 500 identity-step
failures, and the admin-fallback approver substitution with the
configuration still proceeding. -/
theorem configureRoute_businessRules_witness :
    (configureTransferRoute ⟨some "123", some "0xRecip", none⟩
       ⟨.ok [⟨123, some "0xOwnerAA"⟩], .ok ⟨none⟩, .ok true, .ok ⟨true, none⟩,
        .ok [⟨"0xAppr", true⟩], .ok "cfg"⟩).2 =
      .error ⟨"Você precisa conectar sua carteira antes de transferir propriedades",
              400, none⟩ ∧
    (configureTransferRoute ⟨some "123", some "0xRecip", none⟩
       ⟨.ok [⟨123, some "0xOwnerAA"⟩], .ok ⟨some "0xIntruder"⟩, .ok true, .ok ⟨true, none⟩,
        .ok [⟨"0xAppr", true⟩], .ok "cfg"⟩).2 =
      .error ⟨"Você não é o proprietário desta propriedade", 403, none⟩ ∧
    (configureTransferRoute ⟨some "123", some "0xRecip", none⟩
       ⟨.ok [⟨123, some "0xOwnerAA"⟩], .ok ⟨some "0xOwNeRAA"⟩, .error ⟨"boom", 502, none⟩,
        .ok ⟨true, none⟩, .ok [⟨"0xAppr", true⟩], .ok "cfg"⟩).2 =
      .error recipientValidationError ∧
    (configureTransferRoute ⟨some "123", some "0xRecip", none⟩
       ⟨.ok [⟨123, some "0xOwnerAA"⟩], .ok ⟨some "0xOwNeRAA"⟩, .ok false,
        .error ⟨"reg failed", 500, none⟩, .ok [⟨"0xAppr", true⟩], .ok "cfg"⟩).2 =
      .error recipientValidationError ∧
    UpstreamEvent.configureTransferCall
        (configureArgsFor ⟨some "123", some "0xRecip", none⟩ ⟨123, some "0xOwnerAA"⟩
          [fallbackApproverWallet]) ∈
      (configureTransferRoute ⟨some "123", some "0xRecip", none⟩
        ⟨.ok [⟨123, some "0xOwnerAA"⟩], .ok ⟨some "0xOwNeRAA"⟩, .ok true, .ok ⟨true, none⟩,
         .ok [⟨"0xInactive", false⟩], .ok "cfg"⟩).1 ∧
    (configureTransferRoute ⟨some "123", some "0xRecip", none⟩
       ⟨.ok [⟨123, some "0xOwnerAA"⟩], .ok ⟨some "0xOwNeRAA"⟩, .ok true, .ok ⟨true, none⟩,
        .ok [⟨"0xInactive", false⟩], .ok "cfg"⟩).2 = .ok (200, "cfg") := by
  refine ⟨?_, ?_, ?_, ?_, ?_, ?_⟩
  · exact (configureRoute_businessRules (⟨some "123", some "0xRecip", none⟩ : ConfigureBody)
      (⟨.ok [⟨123, some "0xOwnerAA"⟩], .ok ⟨none⟩, .ok true, .ok ⟨true, none⟩, .ok [⟨"0xAppr", true⟩], .ok "cfg"⟩ : ConfigureEnv) [⟨123, some "0xOwnerAA"⟩] ⟨123, some "0xOwnerAA"⟩
      ⟨none⟩ (by decide) (by decide) rfl rfl rfl).1 (by decide)
  · exact (configureRoute_businessRules (⟨some "123", some "0xRecip", none⟩ : ConfigureBody)
      (⟨.ok [⟨123, some "0xOwnerAA"⟩], .ok ⟨some "0xIntruder"⟩, .ok true, .ok ⟨true, none⟩, .ok [⟨"0xAppr", true⟩], .ok "cfg"⟩ : ConfigureEnv) [⟨123, some "0xOwnerAA"⟩] ⟨123, some "0xOwnerAA"⟩
      ⟨some "0xIntruder"⟩ (by decide) (by decide) rfl rfl rfl).2.1 (by decide) (by decide)
  · exact ((configureRoute_businessRules (⟨some "123", some "0xRecip", none⟩ : ConfigureBody)
      (⟨.ok [⟨123, some "0xOwnerAA"⟩], .ok ⟨some "0xOwNeRAA"⟩, .error ⟨"boom", 502, none⟩, .ok ⟨true, none⟩, .ok [⟨"0xAppr", true⟩], .ok "cfg"⟩ : ConfigureEnv) [⟨123, some "0xOwnerAA"⟩] ⟨123, some "0xOwnerAA"⟩
      ⟨some "0xOwNeRAA"⟩ (by decide) (by decide) rfl rfl rfl).2.2 (by decide) (by decide)).1
      ⟨"boom", 502, none⟩ rfl
  · exact ((configureRoute_businessRules (⟨some "123", some "0xRecip", none⟩ : ConfigureBody)
      (⟨.ok [⟨123, some "0xOwnerAA"⟩], .ok ⟨some "0xOwNeRAA"⟩, .ok false, .error ⟨"reg failed", 500, none⟩, .ok [⟨"0xAppr", true⟩], .ok "cfg"⟩ : ConfigureEnv) [⟨123, some "0xOwnerAA"⟩] ⟨123, some "0xOwnerAA"⟩
      ⟨some "0xOwNeRAA"⟩ (by decide) (by decide) rfl rfl rfl).2.2 (by decide) (by decide)).2.1
      ⟨"reg failed", 500, none⟩ rfl rfl
  · exact (((configureRoute_businessRules (⟨some "123", some "0xRecip", none⟩ : ConfigureBody)
      (⟨.ok [⟨123, some "0xOwnerAA"⟩], .ok ⟨some "0xOwNeRAA"⟩, .ok true, .ok ⟨true, none⟩, .ok [⟨"0xInactive", false⟩], .ok "cfg"⟩ : ConfigureEnv) [⟨123, some "0xOwnerAA"⟩] ⟨123, some "0xOwnerAA"⟩
      ⟨some "0xOwNeRAA"⟩ (by decide) (by decide) rfl rfl rfl).2.2 (by decide) (by decide)).2.2
      rfl (.inr ⟨[⟨"0xInactive", false⟩], rfl, by decide⟩)).1
  · exact (((configureRoute_businessRules (⟨some "123", some "0xRecip", none⟩ : ConfigureBody)
      (⟨.ok [⟨123, some "0xOwnerAA"⟩], .ok ⟨some "0xOwNeRAA"⟩, .ok true, .ok ⟨true, none⟩, .ok [⟨"0xInactive", false⟩], .ok "cfg"⟩ : ConfigureEnv) [⟨123, some "0xOwnerAA"⟩] ⟨123, some "0xOwnerAA"⟩
      ⟨some "0xOwNeRAA"⟩ (by decide) (by decide) rfl rfl rfl).2.2 (by decide) (by decide)).2.2
      rfl (.inr ⟨[⟨"0xInactive", false⟩], rfl, by decide⟩)).2 "cfg" rfl

end BffGateway
